import Mathlib

/-!
Verification of the static data in `src/html/pets.rs`.

The source defines one record type (`struct Animal`) and two static
constants: `PETS: [Animal; 4]` and `NEARBY_DUCK: Animal`.  There are no
functions and no other items.  The embedding below mirrors those three
declarations; fixed-size arrays are modelled as lists together with a
proved length fact.
-/

/-- Embeds `struct Animal { kind: &'static str, is_hungry: bool,
meal_needed: &'static str }`. -/
structure Animal where
  kind : String
  is_hungry : Bool
  meal_needed : String
deriving DecidableEq

/-- Embeds `static PETS: [Animal; 4]` with its four literal entries, in
source order. -/
def PETS : List Animal :=
  [Animal.mk "Dog" true "Kibble",
   Animal.mk "Python" false "Cat",
   Animal.mk "Cat" true "Kibble",
   Animal.mk "Lion" false "Kibble"]

/-- Embeds `static NEARBY_DUCK: Animal`. -/
def NEARBY_DUCK : Animal := Animal.mk "Duck" true "pondweed"

/-- Every record the program defines: the four `PETS` entries followed by
`NEARBY_DUCK`.  No other `Animal` value occurs in the source. -/
def allRecords : List Animal := PETS ++ [NEARBY_DUCK]

/-- A read of the static `PETS` at instant `_t` of the process lifetime.
The program contains no write to `PETS`, so every read returns the
initializer value. -/
def readPETS (_t : Nat) : List Animal := PETS

/-- A read of the static `NEARBY_DUCK` at instant `_t` of the process
lifetime.  The program contains no write to it. -/
def readNEARBY_DUCK (_t : Nat) : Animal := NEARBY_DUCK

/-- C1: the record set contains exactly 4 general entries (`PETS` has
length exactly 4) plus exactly 1 additional named entry (`NEARBY_DUCK`),
and the program defines no record outside `allRecords`, which has 4 + 1
elements. -/
theorem c1_record_counts :
    PETS.length = 4 ∧ allRecords = PETS ++ [NEARBY_DUCK] ∧
      allRecords.length = 4 + 1 :=
  ⟨rfl, rfl, rfl⟩

/-- C2: there is an entry in `PETS` with kind "Dog", and every entry in
`PETS` with kind "Dog" has `is_hungry = true` and
`meal_needed = "Kibble"`. -/
theorem c2_dog_entry :
    (∃ a ∈ PETS, a.kind = "Dog") ∧
      ∀ a ∈ PETS, a.kind = "Dog" →
        a.is_hungry = true ∧ a.meal_needed = "Kibble" := by
  decide

/-- C3: `NEARBY_DUCK` has kind "Duck", `is_hungry = true`, and
`meal_needed = "pondweed"`. -/
theorem c3_nearby_duck :
    NEARBY_DUCK.kind = "Duck" ∧ NEARBY_DUCK.is_hungry = true ∧
      NEARBY_DUCK.meal_needed = "pondweed" :=
  ⟨rfl, rfl, rfl⟩

/-- C4: every record the program defines is an `Animal` built from exactly
the three fields `kind : String`, `is_hungry : Bool`,
`meal_needed : String`. -/
theorem c4_record_shape :
    ∀ a ∈ allRecords, a = Animal.mk a.kind a.is_hungry a.meal_needed := by
  decide

/-- Witness for C4 at the concrete record `NEARBY_DUCK`. -/
theorem c4_record_shape_witness :
    NEARBY_DUCK ∈ allRecords ∧
      NEARBY_DUCK =
        Animal.mk NEARBY_DUCK.kind NEARBY_DUCK.is_hungry
          NEARBY_DUCK.meal_needed :=
  ⟨by decide, c4_record_shape NEARBY_DUCK (by decide)⟩

/-- C5: the record set is constant and never mutated: reads of `PETS` or
of `NEARBY_DUCK` at any two instants of the process lifetime yield equal
values. -/
theorem c5_reads_constant (t1 t2 : Nat) :
    readPETS t1 = readPETS t2 ∧ readNEARBY_DUCK t1 = readNEARBY_DUCK t2 :=
  ⟨rfl, rfl⟩

/-- Witness for C5 at the concrete instants 0 and 17. -/
theorem c5_reads_constant_witness :
    readPETS 0 = readPETS 17 ∧ readNEARBY_DUCK 0 = readNEARBY_DUCK 17 :=
  c5_reads_constant 0 17

/-- C6: reading the static data is total and never fails: every access to
`PETS` within its declared bounds yields a record, and `NEARBY_DUCK`
evaluates to a record. -/
theorem c6_read_total (i : Nat) (h : i < PETS.length) :
    (∃ a, PETS[i]? = some a) ∧ ∃ b, NEARBY_DUCK = b :=
  ⟨⟨PETS[i], List.getElem?_eq_getElem h⟩, NEARBY_DUCK, rfl⟩

/-- Witness for C6 at the concrete in-bounds index 0. -/
theorem c6_read_total_witness :
    0 < PETS.length ∧
      ((∃ a, PETS[0]? = some a) ∧ ∃ b, NEARBY_DUCK = b) :=
  ⟨by decide, c6_read_total 0 (by decide)⟩

/-- C7: the visible content of the program is exactly the static list of
animal records: `PETS` is the literal four-element list and `NEARBY_DUCK`
the literal duck record, each carrying only kind, hunger flag and meal
needed. -/
theorem c7_static_content :
    PETS = [Animal.mk "Dog" true "Kibble",
            Animal.mk "Python" false "Cat",
            Animal.mk "Cat" true "Kibble",
            Animal.mk "Lion" false "Kibble"] ∧
      NEARBY_DUCK = Animal.mk "Duck" true "pondweed" :=
  ⟨rfl, rfl⟩

/-- C8: the kind fields of the four `PETS` entries are the pairwise
distinct "Dog", "Python", "Cat", "Lion", so a lookup of a `PETS` entry by
its kind denotes at most one record. -/
theorem c8_kind_lookup_unique :
    (PETS.map Animal.kind = ["Dog", "Python", "Cat", "Lion"] ∧
        (PETS.map Animal.kind).Nodup) ∧
      ∀ a ∈ PETS, ∀ b ∈ PETS, a.kind = b.kind → a = b := by
  decide

/-- C9: every record in `PETS` with `is_hungry = true` has
`meal_needed = "Kibble"`, and the only `PETS` record whose `meal_needed`
is not "Kibble" is the "Python" entry, which has `is_hungry = false`. -/
theorem c9_hungry_needs_kibble :
    (∀ a ∈ PETS, a.is_hungry = true → a.meal_needed = "Kibble") ∧
      ∀ a ∈ PETS, a.meal_needed ≠ "Kibble" →
        a.kind = "Python" ∧ a.is_hungry = false := by
  decide

/-- C10: some `PETS` record's `meal_needed` equals the kind of another
`PETS` record (the "Python" entry needs "Cat", and a "Cat" record is
present), while `NEARBY_DUCK.meal_needed` ("pondweed") equals no record's
kind. -/
theorem c10_meal_kind_links :
    (∃ a ∈ PETS, ∃ b ∈ PETS, a ≠ b ∧ a.meal_needed = b.kind ∧
        a.kind = "Python" ∧ b.kind = "Cat") ∧
      ∀ a ∈ allRecords, a.kind ≠ NEARBY_DUCK.meal_needed := by
  decide
